import Mathlib

/-!
Verification of the triangle-renderer demos (`src/CPP/Triangle/*.cpp`).

This file shallowly embeds the data model and operations of the four renderer
variants (`simple_triangle.cpp`, `triangle_demo.cpp`, `textured_triangle.cpp`,
`phong_triangle.cpp`).  Floating-point values of the C++ code and of the GLSL
shading language are idealized as exact rationals (`ℚ`); matrices produced by
the external glm library are embedded as the symbolic call expressions the
code builds (`Mat4`) together with a semantic interpretation parameterized
over the trigonometric and square-root primitives, so theorems about matrix
values hold over any field and any functions satisfying the few identities
those theorems actually use, in particular over `ℝ` with `Real.cos`,
`Real.sin` and `Real.sqrt`.
-/

namespace Triangle

/-- A 3-component vector of exact rationals, idealizing `glm::vec3` / GLSL
`vec3`. -/
structure V3 where
  x : ℚ
  y : ℚ
  z : ℚ
deriving DecidableEq

/-- Component-wise vector addition. -/
def vadd (a b : V3) : V3 := ⟨a.x + b.x, a.y + b.y, a.z + b.z⟩

/-- Scalar multiplication of a vector. -/
def vsmul (c : ℚ) (a : V3) : V3 := ⟨c * a.x, c * a.y, c * a.z⟩

/-- Component-wise (Hadamard) product, as GLSL `vec3 * vec3`. -/
def vmul (a b : V3) : V3 := ⟨a.x * b.x, a.y * b.y, a.z * b.z⟩

/-- Vector negation. -/
def vneg (a : V3) : V3 := ⟨-a.x, -a.y, -a.z⟩

/-- Vector subtraction. -/
def vsub (a b : V3) : V3 := ⟨a.x - b.x, a.y - b.y, a.z - b.z⟩

/-- Dot product, as GLSL `dot`. -/
def vdot (a b : V3) : ℚ := a.x * b.x + a.y * b.y + a.z * b.z

/-- GLSL `reflect(I, N) = I - 2 * dot(N, I) * N`. -/
def reflectV (i n : V3) : V3 := vsub i (vsmul (2 * vdot n i) n)

/-- GLSL `max` on scalars, written with an executable comparison. -/
def qmax (a b : ℚ) : ℚ := if a ≤ b then b else a

/-- The fragment shader of `phong_triangle.cpp` (`fragmentShaderSource`,
lines 44-64), taken after the three `normalize` calls: `norm`, `lightDir` and
`viewDir` are the already-normalized surface normal, light direction and view
direction at the fragment.  Returns the RGB of `FragColor` together with its
alpha component. -/
def phongFragmentShader (norm lightDir viewDir lightColor objectColor : V3) :
    V3 × ℚ :=
  let ambientStrength : ℚ := 0.1
  let ambient := vsmul ambientStrength lightColor
  let diff := qmax (vdot norm lightDir) 0
  let diffuse := vsmul diff lightColor
  let specularStrength : ℚ := 0.5
  let reflectDir := reflectV (vneg lightDir) norm
  let spec := (qmax (vdot viewDir reflectDir) 0) ^ (32 : ℕ)
  let specular := vsmul (specularStrength * spec) lightColor
  let result := vmul (vadd (vadd ambient diffuse) specular) objectColor
  (result, 1)

/-- Symbolic `glm::mat4` values: exactly the matrix expressions the renderers
build.  `perspective fovyDeg aspect near far` stands for the composite call
`glm::perspective(glm::radians(fovyDeg), aspect, near, far)` as it appears in
the constructors. -/
inductive Mat4 where
  | identity : Mat4
  | rotate : Mat4 → ℚ → V3 → Mat4
  | lookAt : V3 → V3 → V3 → Mat4
  | perspective : ℚ → ℚ → ℚ → ℚ → Mat4
deriving DecidableEq

/-- The matrix computed by `glm::rotate(m, a, v)` (for the rotation factor;
the caller multiplies by `m`): Rodrigues' formula over an arbitrary field,
with the trigonometric and square-root functions passed in. -/
def glmRotate {R : Type} [Field R] (cosf sinf sqrtf : R → R) (a : ℚ) (v : V3) :
    Matrix (Fin 4) (Fin 4) R :=
  let c := cosf ((a : ℚ) : R)
  let s := sinf ((a : ℚ) : R)
  let nx : R := ((v.x : ℚ) : R)
  let ny : R := ((v.y : ℚ) : R)
  let nz : R := ((v.z : ℚ) : R)
  let len := sqrtf (nx * nx + ny * ny + nz * nz)
  let ax := nx / len
  let ay := ny / len
  let az := nz / len
  let t := 1 - c
  Matrix.of
    ![![c + t * ax * ax, t * ay * ax - s * az, t * az * ax + s * ay, 0],
      ![t * ax * ay + s * az, c + t * ay * ay, t * az * ay - s * ax, 0],
      ![t * ax * az - s * ay, t * ay * az + s * ax, c + t * az * az, 0],
      ![0, 0, 0, 1]]

/-- The matrix computed by `glm::lookAt(eye, center, up)` (right-handed). -/
def glmLookAt {R : Type} [Field R] (sqrtf : R → R) (eye center up : V3) :
    Matrix (Fin 4) (Fin 4) R :=
  let ex : R := ((eye.x : ℚ) : R)
  let ey : R := ((eye.y : ℚ) : R)
  let ez : R := ((eye.z : ℚ) : R)
  let ux : R := ((up.x : ℚ) : R)
  let uy : R := ((up.y : ℚ) : R)
  let uz : R := ((up.z : ℚ) : R)
  let fx0 : R := ((center.x : ℚ) : R) - ex
  let fy0 : R := ((center.y : ℚ) : R) - ey
  let fz0 : R := ((center.z : ℚ) : R) - ez
  let flen := sqrtf (fx0 * fx0 + fy0 * fy0 + fz0 * fz0)
  let fx := fx0 / flen
  let fy := fy0 / flen
  let fz := fz0 / flen
  let sx0 := fy * uz - fz * uy
  let sy0 := fz * ux - fx * uz
  let sz0 := fx * uy - fy * ux
  let slen := sqrtf (sx0 * sx0 + sy0 * sy0 + sz0 * sz0)
  let sx := sx0 / slen
  let sy := sy0 / slen
  let sz := sz0 / slen
  let wx := sy * fz - sz * fy
  let wy := sz * fx - sx * fz
  let wz := sx * fy - sy * fx
  Matrix.of
    ![![sx, sy, sz, -(sx * ex + sy * ey + sz * ez)],
      ![wx, wy, wz, -(wx * ex + wy * ey + wz * ez)],
      ![-fx, -fy, -fz, fx * ex + fy * ey + fz * ez],
      ![0, 0, 0, 1]]

/-- The matrix computed by `glm::perspective(glm::radians(fovyDeg), aspect,
near, far)` (right-handed, [-1,1] clip), with `π` passed in so that the
degree-to-radian conversion is explicit. -/
def glmPerspective {R : Type} [Field R] (cosf sinf : R → R) (piR : R)
    (fovyDeg aspect near far : ℚ) : Matrix (Fin 4) (Fin 4) R :=
  let θ := ((fovyDeg : ℚ) : R) * piR / 360
  let tanHalf := sinf θ / cosf θ
  let n : R := ((near : ℚ) : R)
  let f : R := ((far : ℚ) : R)
  Matrix.of
    ![![1 / (((aspect : ℚ) : R) * tanHalf), 0, 0, 0],
      ![0, 1 / tanHalf, 0, 0],
      ![0, 0, -((f + n) / (f - n)), -(2 * f * n / (f - n))],
      ![0, 0, -1, 0]]

/-- Semantic interpretation of the symbolic `Mat4` expressions. -/
def mat4Interp {R : Type} [Field R] (cosf sinf sqrtf : R → R) (piR : R) :
    Mat4 → Matrix (Fin 4) (Fin 4) R
  | Mat4.identity => 1
  | Mat4.rotate m a v =>
      mat4Interp cosf sinf sqrtf piR m * glmRotate cosf sinf sqrtf a v
  | Mat4.lookAt eye center up => glmLookAt sqrtf eye center up
  | Mat4.perspective fovyDeg aspect near far =>
      glmPerspective cosf sinf piR fovyDeg aspect near far

/-- The spec's "rotation matrix for angle `a` about the vertical axis"
(4×4, homogeneous). -/
def rotationYMatrix {R : Type} [Field R] (cosf sinf : R → R) (a : R) :
    Matrix (Fin 4) (Fin 4) R :=
  Matrix.of
    ![![cosf a, 0, sinf a, 0],
      ![0, 1, 0, 0],
      ![-(sinf a), 0, cosf a, 0],
      ![0, 0, 0, 1]]

/-- A per-frame snapshot of the keys the demos poll via `glfwGetKey`. -/
structure Keys where
  escape : Bool
  keyR : Bool
  keyG : Bool
  keyB : Bool
  keyY : Bool
  keyW : Bool
deriving DecidableEq

/-- The snapshot in which no polled key is held. -/
def noKeys : Keys := ⟨false, false, false, false, false, false⟩

/-- The mutable state of `PhongTriangleRenderer` that the claims observe. -/
structure PhongState where
  shouldClose : Bool
  rotationAngle : ℚ
  lightPos : V3
  lightColor : V3
  objectColor : V3
  viewPos : V3
  model : Mat4
  view : Mat4
  projection : Mat4
  viewport : ℕ × ℕ
deriving DecidableEq

/-- The state established by the `PhongTriangleRenderer` constructor
(lines 88-99): `width = 800`, `height = 600`, `rotationAngle = 0`, fixed
lighting parameters, identity model matrix, and view/projection computed once
from the static camera (aspect ratio `800/600`). -/
def phongInitialState : PhongState where
  shouldClose := false
  rotationAngle := 0
  lightPos := ⟨2, 2, 2⟩
  lightColor := ⟨1, 1, 1⟩
  objectColor := ⟨0.3, 0.7, 0.9⟩
  viewPos := ⟨0, 0, 3⟩
  model := Mat4.identity
  view := Mat4.lookAt ⟨0, 0, 3⟩ ⟨0, 0, 0⟩ ⟨0, 1, 0⟩
  projection := Mat4.perspective 45 (800 / 600) 0.1 100
  viewport := (800, 600)

/-- `PhongTriangleRenderer::processInput` (lines 277-295): Escape requests
close; then the four color keys are checked in the fixed order R, G, B, Y,
each unconditionally overwriting `objectColor` while held. -/
def phongProcessInput (k : Keys) (s : PhongState) : PhongState :=
  let s := if k.escape then { s with shouldClose := true } else s
  let s := if k.keyR then { s with objectColor := ⟨0.9, 0.3, 0.3⟩ } else s
  let s := if k.keyG then { s with objectColor := ⟨0.3, 0.9, 0.3⟩ } else s
  let s := if k.keyB then { s with objectColor := ⟨0.3, 0.3, 0.9⟩ } else s
  let s := if k.keyY then { s with objectColor := ⟨0.9, 0.9, 0.3⟩ } else s
  s

/-- The state effect of `PhongTriangleRenderer::render` (lines 228-261): the
rotation angle grows by the fixed increment `0.01` and the model matrix is
recomputed as `glm::rotate(glm::mat4(1.0f), rotationAngle, vec3(0,1,0))`.
Clearing, uniform upload and the draw call do not mutate this state. -/
def phongRender (s : PhongState) : PhongState :=
  let angle := s.rotationAngle + 0.01
  { s with rotationAngle := angle, model := Mat4.rotate Mat4.identity angle ⟨0, 1, 0⟩ }

/-- `PhongTriangleRenderer::framebufferSizeCallback` (lines 304-306): it only
calls `glViewport(0, 0, width, height)`; no other renderer state is touched. -/
def phongFramebufferSizeCallback (w h : ℕ) (s : PhongState) : PhongState :=
  { s with viewport := (w, h) }

/-- `N` consecutive calls of the per-frame advance (`render`). -/
def phongRenderIter : ℕ → PhongState → PhongState
  | 0, s => s
  | n + 1, s => phongRender (phongRenderIter n s)

/-- One full loop iteration of `PhongTriangleRenderer::run` (lines 263-275):
`processInput()` then `render()` (buffer swap and event polling do not mutate
this state). -/
def phongStep (k : Keys) (s : PhongState) : PhongState :=
  phongRender (phongProcessInput k s)

/-- `n` loop iterations, each with the same key snapshot `k`. -/
def phongStepIter (k : Keys) : ℕ → PhongState → PhongState
  | 0, s => s
  | n + 1, s => phongStep k (phongStepIter k n s)

/-- The mutable state of `TexturedTriangleRenderer` that the claims observe. -/
structure TexState where
  shouldClose : Bool
  rotationAngle : ℚ
  objectColor : V3
  model : Mat4
  view : Mat4
  projection : Mat4
  viewport : ℕ × ℕ
deriving DecidableEq

/-- The state established by the `TexturedTriangleRenderer` constructor
(lines 63-71). -/
def texInitialState : TexState where
  shouldClose := false
  rotationAngle := 0
  objectColor := ⟨1, 1, 1⟩
  model := Mat4.identity
  view := Mat4.lookAt ⟨0, 0, 3⟩ ⟨0, 0, 0⟩ ⟨0, 1, 0⟩
  projection := Mat4.perspective 45 (800 / 600) 0.1 100
  viewport := (800, 600)

/-- `TexturedTriangleRenderer::processInput` (lines 296-314): Escape, then
R, G, B, W in that order, each overwriting `objectColor` while held. -/
def texProcessInput (k : Keys) (s : TexState) : TexState :=
  let s := if k.escape then { s with shouldClose := true } else s
  let s := if k.keyR then { s with objectColor := ⟨1, 0.3, 0.3⟩ } else s
  let s := if k.keyG then { s with objectColor := ⟨0.3, 1, 0.3⟩ } else s
  let s := if k.keyB then { s with objectColor := ⟨0.3, 0.3, 1⟩ } else s
  let s := if k.keyW then { s with objectColor := ⟨1, 1, 1⟩ } else s
  s

/-- The state effect of `TexturedTriangleRenderer::render` (lines 249-280). -/
def texRender (s : TexState) : TexState :=
  let angle := s.rotationAngle + 0.01
  { s with rotationAngle := angle, model := Mat4.rotate Mat4.identity angle ⟨0, 1, 0⟩ }

/-- One full loop iteration of `TexturedTriangleRenderer::run` (lines 282-294). -/
def texStep (k : Keys) (s : TexState) : TexState :=
  texRender (texProcessInput k s)

/-- `n` loop iterations of the textured variant with key snapshot `k`. -/
def texStepIter (k : Keys) : ℕ → TexState → TexState
  | 0, s => s
  | n + 1, s => texStep k (texStepIter k n s)

/-- The color-select keys of the Phong variant. -/
inductive PhongColorKey where
  | r
  | g
  | b
  | y
deriving DecidableEq

/-- The key snapshot holding exactly one Phong color key. -/
def phongKeysOf : PhongColorKey → Keys
  | .r => ⟨false, true, false, false, false, false⟩
  | .g => ⟨false, false, true, false, false, false⟩
  | .b => ⟨false, false, false, true, false, false⟩
  | .y => ⟨false, false, false, false, true, false⟩

/-- Each Phong color key's fixed color value (lines 283-294). -/
def phongColorOf : PhongColorKey → V3
  | .r => ⟨0.9, 0.3, 0.3⟩
  | .g => ⟨0.3, 0.9, 0.3⟩
  | .b => ⟨0.3, 0.3, 0.9⟩
  | .y => ⟨0.9, 0.9, 0.3⟩

/-- The color-select keys of the textured variant. -/
inductive TexColorKey where
  | r
  | g
  | b
  | w
deriving DecidableEq

/-- The key snapshot holding exactly one textured-variant color key. -/
def texKeysOf : TexColorKey → Keys
  | .r => ⟨false, true, false, false, false, false⟩
  | .g => ⟨false, false, true, false, false, false⟩
  | .b => ⟨false, false, false, true, false, false⟩
  | .w => ⟨false, false, false, false, false, true⟩

/-- Each textured-variant color key's fixed tint value (lines 302-313). -/
def texColorOf : TexColorKey → V3
  | .r => ⟨1, 0.3, 0.3⟩
  | .g => ⟨0.3, 1, 0.3⟩
  | .b => ⟨0.3, 0.3, 1⟩
  | .w => ⟨1, 1, 1⟩

/-- The success/failure answers of the external collaborators queried during
initialization (GLFW, GLAD and the GL driver's compile/link status).  Each
flag is the status the corresponding external call reports. -/
structure DriverEnv where
  glfwInitOk : Bool
  createWindowOk : Bool
  gladLoadOk : Bool
  vertexCompileOk : Bool
  fragmentCompileOk : Bool
  programLinkOk : Bool
deriving DecidableEq

/-- `createShaders` (identical in all four variants): returns `false` at the
first failed compile or failed link, `true` otherwise. -/
def createShadersOk (e : DriverEnv) : Bool :=
  if !e.vertexCompileOk then false
  else if !e.fragmentCompileOk then false
  else if !e.programLinkOk then false
  else true

/-- `PhongTriangleRenderer::init` (lines 105-146): GLFW init, window
creation, GLAD loading and shader creation each abort with `false`;
`setupBuffers()` returns no status, so a `true` result follows it
unconditionally. -/
def phongInitOk (e : DriverEnv) : Bool :=
  if !e.glfwInitOk then false
  else if !e.createWindowOk then false
  else if !e.gladLoadOk then false
  else if !createShadersOk e then false
  else true

/-- One texel of the procedural checkerboard built by
`TexturedTriangleRenderer::loadTexture` (lines 159-178). -/
def checkerTexel (x y : ℕ) : ℕ × ℕ × ℕ :=
  if (x / 8 + y / 8) % 2 == 0 then (255, 255, 255) else (255, 100, 100)

/-- The status returned by `TexturedTriangleRenderer::loadTexture`
(lines 153-195): it generates the checkerboard, uploads it, and returns
`true` unconditionally — there is no failure path. -/
def texLoadTextureOk : Bool := true

/-- `TexturedTriangleRenderer::init` (lines 77-123): like the Phong variant
plus the `loadTexture()` check after `setupBuffers()`. -/
def texInitOk (e : DriverEnv) : Bool :=
  if !e.glfwInitOk then false
  else if !e.createWindowOk then false
  else if !e.gladLoadOk then false
  else if !createShadersOk e then false
  else if !texLoadTextureOk then false
  else true

/-- The `run` loop of the Phong variant driven by a finite schedule of
per-frame key snapshots (exhaustion of the schedule stands for an external
window-close request).  Returns the final state and the number of frames
rendered. -/
def phongRunLoop : List Keys → PhongState → PhongState × ℕ
  | [], s => (s, 0)
  | k :: ks, s =>
    if s.shouldClose then (s, 0)
    else
      let r := phongRunLoop ks (phongStep k s)
      (r.1, r.2 + 1)

/-- The `run` loop of the textured variant. -/
def texRunLoop : List Keys → TexState → TexState × ℕ
  | [], s => (s, 0)
  | k :: ks, s =>
    if s.shouldClose then (s, 0)
    else
      let r := texRunLoop ks (texStep k s)
      (r.1, r.2 + 1)

/-- `main` of `phong_triangle.cpp` (lines 309-328): a failed `init()` returns
`-1` without ever entering the render loop; otherwise the loop runs until
closed and `main` returns `0`.  The result is the process exit code paired
with the number of frames rendered. -/
def phongMain (e : DriverEnv) (inputs : List Keys) : Int × ℕ :=
  if phongInitOk e then (0, (phongRunLoop inputs phongInitialState).2)
  else (-1, 0)

/-- `main` of `textured_triangle.cpp` (lines 329-348). -/
def texMain (e : DriverEnv) (inputs : List Keys) : Int × ℕ :=
  if texInitOk e then (0, (texRunLoop inputs texInitialState).2)
  else (-1, 0)

/-- The GL object-name state: a fresh-name counter and the live names of each
object class.  Modelled from the spec: the graphics driver that owns GPU
handles is an external collaborator (spec §6); per the GL object model the
spec relies on (§4.6, §8), `glGen*`/`glCreate*` return fresh unused names and
`glDelete*` silently ignores names that are not live. -/
structure GLState where
  nextId : ℕ
  liveArrays : List ℕ
  liveBuffers : List ℕ
  livePrograms : List ℕ
  liveShaders : List ℕ
  liveTextures : List ℕ
deriving DecidableEq

/-- `glGenVertexArrays(1, &VAO)`: a fresh live vertex-array name. -/
def genArray (g : GLState) : ℕ × GLState :=
  (g.nextId, { g with nextId := g.nextId + 1, liveArrays := g.nextId :: g.liveArrays })

/-- `glGenBuffers(1, &VBO)`. -/
def genBuffer (g : GLState) : ℕ × GLState :=
  (g.nextId, { g with nextId := g.nextId + 1, liveBuffers := g.nextId :: g.liveBuffers })

/-- `glCreateShader(...)`. -/
def genShader (g : GLState) : ℕ × GLState :=
  (g.nextId, { g with nextId := g.nextId + 1, liveShaders := g.nextId :: g.liveShaders })

/-- `glCreateProgram()`. -/
def genProgram (g : GLState) : ℕ × GLState :=
  (g.nextId, { g with nextId := g.nextId + 1, livePrograms := g.nextId :: g.livePrograms })

/-- `glGenTextures(1, &texture)`. -/
def genTexture (g : GLState) : ℕ × GLState :=
  (g.nextId, { g with nextId := g.nextId + 1, liveTextures := g.nextId :: g.liveTextures })

/-- `glDeleteVertexArrays(1, &h)`: releases `h` if live, silent no-op
otherwise. -/
def delArray (h : ℕ) (g : GLState) : GLState :=
  { g with liveArrays := g.liveArrays.erase h }

/-- `glDeleteBuffers(1, &h)`. -/
def delBuffer (h : ℕ) (g : GLState) : GLState :=
  { g with liveBuffers := g.liveBuffers.erase h }

/-- `glDeleteShader(h)`. -/
def delShader (h : ℕ) (g : GLState) : GLState :=
  { g with liveShaders := g.liveShaders.erase h }

/-- `glDeleteProgram(h)`. -/
def delProgram (h : ℕ) (g : GLState) : GLState :=
  { g with livePrograms := g.livePrograms.erase h }

/-- `glDeleteTextures(1, &h)`. -/
def delTexture (h : ℕ) (g : GLState) : GLState :=
  { g with liveTextures := g.liveTextures.erase h }

/-- The GPU handles `PhongTriangleRenderer` owns after initialization. -/
structure PhongHandles where
  vao : ℕ
  vbo : ℕ
  prog : ℕ
deriving DecidableEq

/-- The handle effect of `PhongTriangleRenderer::createShaders`
(lines 176-226) on success: create two stage handles and the program, link,
then delete both stage handles (they are transient). -/
def phongCreateShadersGL (g : GLState) : ℕ × GLState :=
  let r1 := genShader g
  let r2 := genShader r1.2
  let r3 := genProgram r2.2
  let g3 := delShader r1.1 r3.2
  let g4 := delShader r2.1 g3
  (r3.1, g4)

/-- The handle effect of `PhongTriangleRenderer::setupBuffers`
(lines 148-174): one vertex array and one buffer. -/
def phongSetupBuffersGL (g : GLState) : (ℕ × ℕ) × GLState :=
  let r1 := genArray g
  let r2 := genBuffer r1.2
  ((r1.1, r2.1), r2.2)

/-- The handle effect of a successful `PhongTriangleRenderer::init`
(lines 105-146): `createShaders()` then `setupBuffers()`. -/
def phongInitGL (g : GLState) : PhongHandles × GLState :=
  let rs := phongCreateShadersGL g
  let rb := phongSetupBuffersGL rs.2
  (⟨rb.1.1, rb.1.2, rs.1⟩, rb.2)

/-- `PhongTriangleRenderer::cleanup` (lines 297-302): delete the vertex
array, the buffer and the program, unconditionally. -/
def phongCleanupGL (hs : PhongHandles) (g : GLState) : GLState :=
  delProgram hs.prog (delBuffer hs.vbo (delArray hs.vao g))

/-- Well-formedness of a GL name state: every live name is below the fresh
counter. -/
def GLStateWF (g : GLState) : Prop :=
  (∀ h ∈ g.liveArrays, h < g.nextId) ∧ (∀ h ∈ g.liveBuffers, h < g.nextId) ∧
  (∀ h ∈ g.livePrograms, h < g.nextId) ∧ (∀ h ∈ g.liveShaders, h < g.nextId) ∧
  (∀ h ∈ g.liveTextures, h < g.nextId)

instance (g : GLState) : Decidable (GLStateWF g) :=
  inferInstanceAs (Decidable ((∀ h ∈ g.liveArrays, h < g.nextId) ∧
    (∀ h ∈ g.liveBuffers, h < g.nextId) ∧ (∀ h ∈ g.livePrograms, h < g.nextId) ∧
    (∀ h ∈ g.liveShaders, h < g.nextId) ∧ (∀ h ∈ g.liveTextures, h < g.nextId)))

/-- A linked program's uniform interface: the list of active uniform names
fixed at link time, the current value bound to each, and the GL error flag.
Values are kept as flat component lists. -/
structure GLProgram where
  active : List String
  store : List (String × List ℚ)
  glError : Bool
deriving DecidableEq

/-- Index of the first occurrence of `name` in an active-uniform list,
`-1` when absent. -/
def lookupIdx : List String → String → Int
  | [], _ => -1
  | n :: l, name =>
    if n = name then 0
    else
      let r := lookupIdx l name
      if r = -1 then -1 else r + 1

/-- Modelled from the spec: `glGetUniformLocation` is the graphics driver's
name lookup (spec §4.2 / §6, not code under `src/`): it returns the location
of an active uniform and `-1` when the name is absent (e.g. optimized out). -/
def glGetUniformLocation (p : GLProgram) (name : String) : Int :=
  lookupIdx p.active name

/-- Updates the stored value of an active uniform by name. -/
def setStore (st : List (String × List ℚ)) (name : String) (v : List ℚ) :
    List (String × List ℚ) :=
  st.map (fun e => if e.1 = name then (name, v) else e)

/-- Modelled from the spec: `glUniform*` as the driver executes it (spec
§4.2): location `-1` is silently ignored — no error is recorded and no
program state changes; a valid location updates the named uniform. -/
def glProgramUniform (p : GLProgram) (loc : Int) (v : List ℚ) : GLProgram :=
  if loc = -1 then p
  else
    match p.active.get? loc.toNat with
    | some name => { p with store := setStore p.store name v }
    | none => { p with glError := true }

/-- The per-uniform upload step used in `render` (lines 240-255): look up the
location by name, then upload to it. -/
def setUniform (p : GLProgram) (name : String) (v : List ℚ) : GLProgram :=
  glProgramUniform p (glGetUniformLocation p name) v

/-- The per-frame upload of a list of named uniform values. -/
def uploadUniforms (p : GLProgram) (us : List (String × List ℚ)) : GLProgram :=
  us.foldl (fun q nv => setUniform q nv.1 nv.2) p

/-- The observable actions of one render-loop iteration, for sequencing
claims. -/
inductive RenderEvent where
  | pollInput
  | clearBuffers
  | useProgram
  | advanceRotation
  | pushUniforms
  | bindTextureEv
  | bindGeometry
  | drawCall
  | presentFrame
  | yieldEvents
deriving DecidableEq

/-- The action sequence of `PhongTriangleRenderer::render` (lines 228-261):
clear, use program, advance rotation, push uniforms, bind geometry, draw. -/
def phongRenderTrace : List RenderEvent :=
  [.clearBuffers, .useProgram, .advanceRotation, .pushUniforms, .bindGeometry, .drawCall]

/-- One iteration of `PhongTriangleRenderer::run` (lines 263-275):
`processInput()`, `render()`, `glfwSwapBuffers`, `glfwPollEvents`. -/
def phongIterationTrace : List RenderEvent :=
  .pollInput :: (phongRenderTrace ++ [.presentFrame, .yieldEvents])

/-- The action sequence of `TexturedTriangleRenderer::render`
(lines 249-280): as the Phong variant but binding the texture before the
geometry. -/
def texIterationRenderTrace : List RenderEvent :=
  [.clearBuffers, .useProgram, .advanceRotation, .pushUniforms, .bindTextureEv,
   .bindGeometry, .drawCall]

/-- One iteration of `TexturedTriangleRenderer::run` (lines 282-294). -/
def texIterationTrace : List RenderEvent :=
  .pollInput :: (texIterationRenderTrace ++ [.presentFrame, .yieldEvents])

/-- The action sequence of `SimpleTriangleRenderer::render` (lines 155-166):
this variant swaps buffers and polls events inside `render()`. -/
def simpleRenderTrace : List RenderEvent :=
  [.clearBuffers, .useProgram, .bindGeometry, .drawCall, .presentFrame, .yieldEvents]

/-- One iteration of `SimpleTriangleRenderer::run` (lines 168-180): `render()`
first, the Escape-key check only afterwards. -/
def simpleIterationTrace : List RenderEvent :=
  simpleRenderTrace ++ [.pollInput]

/-- The action sequence of `TriangleRenderer::render` in `triangle_demo.cpp`
(lines 177-187). -/
def demoRenderTrace : List RenderEvent :=
  [.clearBuffers, .useProgram, .bindGeometry, .drawCall, .presentFrame, .yieldEvents]

/-- One iteration of `TriangleRenderer::run` in `triangle_demo.cpp`
(lines 189-201): `render()` first, input check afterwards. -/
def demoIterationTrace : List RenderEvent :=
  demoRenderTrace ++ [.pollInput]

/-- The per-frame cycle (a)-(h) claimed by the spec (§4.6), with the texture
binding present only when the texture stage is enabled. -/
def specCycle (textureEnabled : Bool) : List RenderEvent :=
  [.pollInput, .clearBuffers, .useProgram, .advanceRotation, .pushUniforms]
    ++ (if textureEnabled then [.bindTextureEv] else [])
    ++ [.bindGeometry, .drawCall, .presentFrame, .yieldEvents]

/-- A demonstration program interface: the active uniforms of the Phong
fragment/vertex pair as linked. -/
def demoActiveUniforms : List String :=
  ["model", "view", "projection", "lightColor", "objectColor", "viewPos"]

/-- A demonstration linked program with no error flagged. -/
def demoProgram : GLProgram := ⟨demoActiveUniforms, [], false⟩

/-- A uniform name absent from `demoProgram` (e.g. optimized out). -/
def missingUniform : String := "lightPos"

/-! ### Helper lemmas -/

theorem phongStep_keysOf_objectColor (ck : PhongColorKey) (s : PhongState) :
    (phongStep (phongKeysOf ck) s).objectColor = phongColorOf ck := by
  cases ck <;> rfl

theorem phongStep_noKeys_objectColor (s : PhongState) :
    (phongStep noKeys s).objectColor = s.objectColor := rfl

theorem phongStepIter_noKeys_objectColor (M : ℕ) (s : PhongState) :
    (phongStepIter noKeys M s).objectColor = s.objectColor := by
  induction M with
  | zero => rfl
  | succ n ih => simpa [phongStepIter, phongStep_noKeys_objectColor] using ih

theorem texStep_keysOf_objectColor (tk : TexColorKey) (s : TexState) :
    (texStep (texKeysOf tk) s).objectColor = texColorOf tk := by
  cases tk <;> rfl

theorem texStep_noKeys_objectColor (s : TexState) :
    (texStep noKeys s).objectColor = s.objectColor := rfl

theorem texStepIter_noKeys_objectColor (M : ℕ) (s : TexState) :
    (texStepIter noKeys M s).objectColor = s.objectColor := by
  induction M with
  | zero => rfl
  | succ n ih => simpa [texStepIter, texStep_noKeys_objectColor] using ih

/-! ### Claim C1 -/

/-- Claim C1 as stated is false: at a fragment where the normalized normal is
perpendicular to the normalized light direction, the specular term is NOT
zero for every viewer position.  Concretely, with `norm = (0,0,1)`,
`lightDir = (1,0,0)` (so `dot(norm, lightDir) = 0`), unit light color and
unit base color, a viewer direction `viewDir = (-1,0,0)` yields the color
`(0.1 + 0.5, …) = (0.6, 0.6, 0.6)`, not the ambient-only `(0.1, 0.1, 0.1)`. -/
theorem C1_counterexample :
    vdot ⟨0, 0, 1⟩ ⟨1, 0, 0⟩ = 0 ∧
    phongFragmentShader ⟨0, 0, 1⟩ ⟨1, 0, 0⟩ ⟨-1, 0, 0⟩ ⟨1, 1, 1⟩ ⟨1, 1, 1⟩
        = (⟨0.6, 0.6, 0.6⟩, 1) ∧
    phongFragmentShader ⟨0, 0, 1⟩ ⟨1, 0, 0⟩ ⟨-1, 0, 0⟩ ⟨1, 1, 1⟩ ⟨1, 1, 1⟩
        ≠ (vmul (vsmul 0.1 ⟨1, 1, 1⟩) ⟨1, 1, 1⟩, 1) := by
  refine ⟨by norm_num [vdot], ?_, ?_⟩ <;>
    · simp only [phongFragmentShader, vadd, vsmul, vmul, vdot, reflectV, vsub, vneg, qmax]
      norm_num

/-- Claim C1, amended: at a fragment where the normalized surface normal is
perpendicular to the normalized light direction, the diffuse term vanishes;
the specular term also vanishes — so the final color is ambient alone,
`0.1 × lightColor × objectBaseColor` with alpha `1.0` — exactly for the
viewer positions whose view direction satisfies
`dot(viewDir, reflect(-lightDir, norm)) ≤ 0` (not for every viewer). -/
theorem C1_theorem (norm lightDir viewDir lightColor objectColor : V3)
    (hperp : vdot norm lightDir = 0)
    (hview : vdot viewDir (reflectV (vneg lightDir) norm) ≤ 0) :
    phongFragmentShader norm lightDir viewDir lightColor objectColor
      = (vmul (vsmul 0.1 lightColor) objectColor, 1) := by
  have hd : qmax (vdot norm lightDir) 0 = 0 := by rw [hperp]; simp [qmax]
  have hsp : qmax (vdot viewDir (reflectV (vneg lightDir) norm)) 0 = 0 := by
    simp only [qmax, if_pos hview]
  simp only [phongFragmentShader, hd, hsp]
  obtain ⟨lx, ly, lz⟩ := lightColor
  obtain ⟨ox, oy, oz⟩ := objectColor
  simp only [vmul, vadd, vsmul, Prod.mk.injEq, V3.mk.injEq]
  norm_num

/-- Witness for `C1_theorem`: a concrete normalized configuration with
`N ⊥ L` and a viewer on the non-glancing side, and the resulting
ambient-only color. -/
theorem C1_witness :
    vdot ⟨0, 0, 1⟩ ⟨1, 0, 0⟩ = 0 ∧
    vdot ⟨1, 0, 0⟩ (reflectV (vneg ⟨1, 0, 0⟩) ⟨0, 0, 1⟩) ≤ 0 ∧
    phongFragmentShader ⟨0, 0, 1⟩ ⟨1, 0, 0⟩ ⟨1, 0, 0⟩ ⟨1, 1, 1⟩ ⟨0.3, 0.7, 0.9⟩
      = (vmul (vsmul 0.1 ⟨1, 1, 1⟩) ⟨0.3, 0.7, 0.9⟩, 1) :=
  ⟨by norm_num [vdot],
   by norm_num [vdot, reflectV, vsub, vsmul, vneg],
   C1_theorem ⟨0, 0, 1⟩ ⟨1, 0, 0⟩ ⟨1, 0, 0⟩ ⟨1, 1, 1⟩ ⟨0.3, 0.7, 0.9⟩
     (by norm_num [vdot]) (by norm_num [vdot, reflectV, vsub, vsmul, vneg])⟩

/-! ### Claim C3 -/

/-- Claim C3: holding a single color-select key for `K` consecutive frames
leaves `objectColor` at that key's fixed value after every one of those
frames (here: after frame `i` for every `1 ≤ i ≤ K`), and after the key is
released (any number `M` of further frames with no key held) the color keeps
that value — in both the Phong variant (keys R, G, B, Y) and the textured
variant (keys R, G, B, W). -/
theorem C3_theorem (ck : PhongColorKey) (tk : TexColorKey) (K i M : ℕ)
    (hK : 1 ≤ K) (hi1 : 1 ≤ i) (hiK : i ≤ K) (s0 : PhongState) (t0 : TexState) :
    (phongStepIter (phongKeysOf ck) i s0).objectColor = phongColorOf ck ∧
    (phongStepIter noKeys M (phongStepIter (phongKeysOf ck) K s0)).objectColor
      = phongColorOf ck ∧
    (texStepIter (texKeysOf tk) i t0).objectColor = texColorOf tk ∧
    (texStepIter noKeys M (texStepIter (texKeysOf tk) K t0)).objectColor
      = texColorOf tk := by
  obtain ⟨j, rfl⟩ : ∃ j, i = j + 1 := ⟨i - 1, by omega⟩
  obtain ⟨l, rfl⟩ : ∃ l, K = l + 1 := ⟨K - 1, by omega⟩
  refine ⟨phongStep_keysOf_objectColor ck _, ?_, texStep_keysOf_objectColor tk _, ?_⟩
  · rw [phongStepIter_noKeys_objectColor]
    exact phongStep_keysOf_objectColor ck _
  · rw [texStepIter_noKeys_objectColor]
    exact texStep_keysOf_objectColor tk _

/-- Witness for `C3_theorem`: key R in the Phong variant and key W in the
textured variant, held for `K = 2` frames, observed after frame `i = 1`, and
`M = 3` idle frames after release, from the constructors' initial states. -/
theorem C3_witness :
    (1 ≤ 2 ∧ 1 ≤ 1 ∧ 1 ≤ 2) ∧
    ((phongStepIter (phongKeysOf .r) 1 phongInitialState).objectColor
        = phongColorOf .r ∧
     (phongStepIter noKeys 3 (phongStepIter (phongKeysOf .r) 2 phongInitialState)).objectColor
        = phongColorOf .r ∧
     (texStepIter (texKeysOf .w) 1 texInitialState).objectColor = texColorOf .w ∧
     (texStepIter noKeys 3 (texStepIter (texKeysOf .w) 2 texInitialState)).objectColor
        = texColorOf .w) :=
  ⟨⟨by decide, by decide, by decide⟩,
   C3_theorem .r .w 2 1 3 (by decide) (by decide) (by decide)
     phongInitialState texInitialState⟩

/-! ### Claim C10 -/

/-- Claim C10: input handling is a deterministic function of the frame's key
snapshot; the checks run in the fixed order Escape, R, G, B, then Y (Phong)
or W (textured), each held color key unconditionally overwriting
`objectColor`, so the last held key in that order determines the frame's
final `objectColor`. -/
theorem C10_theorem (k : Keys) (s : PhongState) (t : TexState) :
    (phongProcessInput k s).objectColor =
      (if k.keyY then ⟨0.9, 0.9, 0.3⟩
       else if k.keyB then ⟨0.3, 0.3, 0.9⟩
       else if k.keyG then ⟨0.3, 0.9, 0.3⟩
       else if k.keyR then ⟨0.9, 0.3, 0.3⟩
       else s.objectColor) ∧
    (texProcessInput k t).objectColor =
      (if k.keyW then ⟨1, 1, 1⟩
       else if k.keyB then ⟨0.3, 0.3, 1⟩
       else if k.keyG then ⟨0.3, 1, 0.3⟩
       else if k.keyR then ⟨1, 0.3, 0.3⟩
       else t.objectColor) := by
  obtain ⟨e, r, g, b, y, w⟩ := k
  cases e <;> cases r <;> cases g <;> cases b <;> cases y <;> cases w <;>
    exact ⟨rfl, rfl⟩


/-! ### Claim C2 -/

theorem rotationYMatrix_zero {R : Type} [Field R] (cosf sinf : R → R)
    (hc : cosf 0 = 1) (hs : sinf 0 = 0) :
    rotationYMatrix cosf sinf 0 = (1 : Matrix (Fin 4) (Fin 4) R) := by
  ext i j
  fin_cases i <;> fin_cases j <;>
    simp [rotationYMatrix, hc, hs, Matrix.one_apply, Matrix.vecHead, Matrix.vecTail]

theorem glmRotate_yAxis {R : Type} [Field R] (cosf sinf sqrtf : R → R)
    (hq : sqrtf 1 = 1) (a : ℚ) :
    glmRotate cosf sinf sqrtf a ⟨0, 1, 0⟩ = rotationYMatrix cosf sinf ((a : ℚ) : R) := by
  ext i j
  fin_cases i <;> fin_cases j <;>
    simp [glmRotate, rotationYMatrix, hq]

theorem phongRenderIter_rotationAngle (N : ℕ) (s : PhongState) :
    (phongRenderIter N s).rotationAngle = s.rotationAngle + (N : ℚ) * 0.01 := by
  induction N with
  | zero => simp [phongRenderIter]
  | succ n ih =>
    show (phongRender (phongRenderIter n s)).rotationAngle = _
    rw [phongRender]
    rw [ih]
    push_cast
    ring

theorem phongRenderIter_model (N : ℕ) (s : PhongState) :
    (phongRenderIter (N + 1) s).model
      = Mat4.rotate Mat4.identity ((phongRenderIter (N + 1) s).rotationAngle) ⟨0, 1, 0⟩ :=
  rfl

/-- Claim C2: for every `N ≥ 0`, after `N` calls of the per-frame advance
(each adding the fixed increment `0.01` to `rotationAngle`, starting from
`0`), `rotationAngle` equals `N · 0.01` exactly — never wrapped into
`[0, 2π)` — and the model matrix equals the rotation matrix for angle
`N · 0.01` about the vertical axis, over any field equipped with functions
satisfying `cos 0 = 1`, `sin 0 = 0` and `sqrt 1 = 1` (so in particular over
`ℝ` with the genuine functions).  `N = 0, 1, 1000` are instances. -/
theorem C2_theorem {R : Type} [Field R] (cosf sinf sqrtf : R → R) (piR : R)
    (hc : cosf 0 = 1) (hs : sinf 0 = 0) (hq : sqrtf 1 = 1) (N : ℕ) :
    (phongRenderIter N phongInitialState).rotationAngle = (N : ℚ) * 0.01 ∧
    mat4Interp cosf sinf sqrtf piR (phongRenderIter N phongInitialState).model
      = rotationYMatrix cosf sinf ((((N : ℚ) * 0.01 : ℚ)) : R) := by
  have hang : (phongRenderIter N phongInitialState).rotationAngle = (N : ℚ) * 0.01 := by
    rw [phongRenderIter_rotationAngle]
    simp [phongInitialState]
  refine ⟨hang, ?_⟩
  cases N with
  | zero =>
    have h0 : (((0 : ℕ) : ℚ) * 0.01 : ℚ) = 0 := by norm_num
    rw [h0]
    show mat4Interp cosf sinf sqrtf piR Mat4.identity = _
    rw [mat4Interp, Rat.cast_zero, rotationYMatrix_zero cosf sinf hc hs]
  | succ n =>
    rw [phongRenderIter_model n phongInitialState, mat4Interp, mat4Interp, one_mul,
      glmRotate_yAxis cosf sinf sqrtf hq, hang]

/-- Witness for `C2_theorem`: instantiated over `ℚ` with functions satisfying
the three hypotheses, at `N = 1`. -/
theorem C2_witness :
    ((fun _ : ℚ => (1 : ℚ)) 0 = 1) ∧ ((fun _ : ℚ => (0 : ℚ)) 0 = 0) ∧
    ((fun _ : ℚ => (1 : ℚ)) 1 = 1) ∧
    ((phongRenderIter 1 phongInitialState).rotationAngle = ((1 : ℕ) : ℚ) * 0.01 ∧
     mat4Interp (fun _ : ℚ => (1 : ℚ)) (fun _ : ℚ => (0 : ℚ)) (fun _ : ℚ => (1 : ℚ)) 0
        (phongRenderIter 1 phongInitialState).model
       = rotationYMatrix (fun _ : ℚ => (1 : ℚ)) (fun _ : ℚ => (0 : ℚ))
           ((((1 : ℕ) : ℚ) * 0.01 : ℚ) : ℚ)) :=
  ⟨rfl, rfl, rfl,
   C2_theorem (fun _ : ℚ => (1 : ℚ)) (fun _ : ℚ => (0 : ℚ)) (fun _ : ℚ => (1 : ℚ)) 0
     rfl rfl rfl 1⟩

/-! ### Claim C7 -/

/-- Claim C7 is false: the framebuffer-resize callback only updates the
viewport (`glViewport`); the projection matrix is NOT recomputed with the new
aspect ratio.  Concretely, after a resize to `(400, 400)` the projection used
by subsequent frames is still `perspective(radians(45), 800/600, 0.1, 100)`,
which (interpreted over `ℝ`) differs from the matrix the claim demands,
`perspective(radians(45), 400/400, 0.1, 100)`. -/
theorem C7_counterexample :
    (phongRender (phongFramebufferSizeCallback 400 400 phongInitialState)).projection
        = Mat4.perspective 45 (800 / 600) 0.1 100 ∧
    mat4Interp Real.cos Real.sin Real.sqrt Real.pi
        ((phongRender (phongFramebufferSizeCallback 400 400 phongInitialState)).projection)
      ≠ mat4Interp Real.cos Real.sin Real.sqrt Real.pi
          (Mat4.perspective 45 (400 / 400) 0.1 100) := by
  refine ⟨rfl, ?_⟩
  intro hEq
  have hproj : (phongRender (phongFramebufferSizeCallback 400 400 phongInitialState)).projection
      = Mat4.perspective 45 (800 / 600) 0.1 100 := rfl
  rw [hproj] at hEq
  have h00 := Matrix.ext_iff.mpr hEq (0 : Fin 4) (0 : Fin 4)
  have hθ : (((45 : ℚ) : ℝ)) * Real.pi / 360 = Real.pi / 8 := by
    push_cast
    ring
  have hsin : 0 < Real.sin (Real.pi / 8) :=
    Real.sin_pos_of_pos_of_lt_pi (by positivity) (by linarith [Real.pi_pos])
  have hcos : 0 < Real.cos (Real.pi / 8) := by
    apply Real.cos_pos_of_mem_Ioo
    constructor
    · linarith [Real.pi_pos]
    · linarith [Real.pi_pos]
  have ht : 0 < Real.sin (Real.pi / 8) / Real.cos (Real.pi / 8) := by positivity
  simp only [mat4Interp, glmPerspective, hθ, Matrix.of_apply, Matrix.cons_val_zero] at h00
  have h43 : (((800 / 600 : ℚ)) : ℝ) = 4 / 3 := by norm_num
  have h11 : (((400 / 400 : ℚ)) : ℝ) = 1 := by norm_num
  rw [h43, h11, one_mul, one_div, one_div] at h00
  have h2 := inv_injective h00
  linarith [ht, h2]

/-- Claim C7, amended: a framebuffer-resize notification updates only the
viewport to `(w, h)`; the projection matrix is left unchanged by both the
callback and the per-frame render, and keeps the constructor's aspect ratio
`800/600` for the process lifetime. -/
theorem C7_theorem (w h : ℕ) (s : PhongState) :
    (phongFramebufferSizeCallback w h s).viewport = (w, h) ∧
    (phongFramebufferSizeCallback w h s).projection = s.projection ∧
    (phongRender s).projection = s.projection ∧
    phongInitialState.projection = Mat4.perspective 45 (800 / 600) 0.1 100 :=
  ⟨rfl, rfl, rfl, rfl⟩

/-! ### Claim C8 -/

/-- Claim C8 is false for the simple variant (`simple_triangle.cpp`): its
loop iteration does not follow the claimed cycle for any setting of the
texture stage — it renders, presents and yields first and polls input only
afterwards (and it has no rotation advance or uniform push at all). -/
theorem C8_counterexample :
    simpleIterationTrace ≠ specCycle false ∧ simpleIterationTrace ≠ specCycle true ∧
    simpleIterationTrace.take 1 = [RenderEvent.clearBuffers] ∧
    simpleIterationTrace.getLast? = some RenderEvent.pollInput := by
  decide

/-- Claim C8, amended: the Phong and textured variants perform each loop
iteration exactly in the claimed order (a) poll input, (b) clear, (c) use
program, (d) advance rotation, (e) push uniforms, (f) bind texture (if
enabled) and geometry, (g) draw, (h) present and yield; the simple and
color-interpolated variants instead clear, use program, bind, draw, present
and yield first and poll input last in the iteration (with no rotation
advance or uniform push). -/
theorem C8_theorem :
    phongIterationTrace = specCycle false ∧
    texIterationTrace = specCycle true ∧
    simpleIterationTrace
      = [RenderEvent.clearBuffers, RenderEvent.useProgram, RenderEvent.bindGeometry,
         RenderEvent.drawCall, RenderEvent.presentFrame, RenderEvent.yieldEvents,
         RenderEvent.pollInput] ∧
    demoIterationTrace = simpleIterationTrace := by
  decide

/-! ### Claim C9 -/

/-- Claim C9: `loadTexture` in the textured variant unconditionally returns
`true` and `setupBuffers` reports no status, so initialization returns
`false` exactly when GLFW initialization, window creation, GLAD loading, or
a shader compile/link fails — never because of buffer or texture allocation;
consequently the Phong and textured `init` agree on every environment. -/
theorem C9_theorem (e : DriverEnv) :
    texLoadTextureOk = true ∧
    (texInitOk e = false ↔
      (e.glfwInitOk = false ∨ e.createWindowOk = false ∨ e.gladLoadOk = false ∨
       e.vertexCompileOk = false ∨ e.fragmentCompileOk = false ∨
       e.programLinkOk = false)) ∧
    texInitOk e = phongInitOk e := by
  obtain ⟨a, b, c, d, f, g⟩ := e
  cases a <;> cases b <;> cases c <;> cases d <;> cases f <;> cases g <;> decide

/-! ### Claim C4 -/

/-- Claim C4: if any initialization component fails (GLFW init, window
creation, GLAD loading, shader compile or link — texture upload, where
enabled, has no failure path), `init` returns failure, the render loop is
never entered (zero frames are rendered) and the process exit code is
non-zero; conversely, with every component succeeding the process exits with
code `0` after a normal close.  Both for the Phong and the textured
variant. -/
theorem C4_theorem (e : DriverEnv) (inputs : List Keys)
    (hfail : e.glfwInitOk = false ∨ e.createWindowOk = false ∨ e.gladLoadOk = false ∨
      e.vertexCompileOk = false ∨ e.fragmentCompileOk = false ∨
      e.programLinkOk = false) :
    (phongMain e inputs).1 ≠ 0 ∧ (phongMain e inputs).2 = 0 ∧
    (texMain e inputs).1 ≠ 0 ∧ (texMain e inputs).2 = 0 ∧
    (∀ e2 : DriverEnv, phongInitOk e2 = true → (phongMain e2 inputs).1 = 0) ∧
    (∀ e2 : DriverEnv, texInitOk e2 = true → (texMain e2 inputs).1 = 0) := by
  have hpo : phongInitOk e = false := by
    obtain ⟨a, b, c, d, f, g⟩ := e
    simp only [phongInitOk, createShadersOk]
    rcases hfail with h | h | h | h | h | h <;> simp_all
  have hto : texInitOk e = false := by
    obtain ⟨a, b, c, d, f, g⟩ := e
    simp only [texInitOk, createShadersOk, texLoadTextureOk]
    rcases hfail with h | h | h | h | h | h <;> simp_all
  refine ⟨?_, ?_, ?_, ?_, ?_, ?_⟩
  · simp [phongMain, hpo]
  · simp [phongMain, hpo]
  · simp [texMain, hto]
  · simp [texMain, hto]
  · intro e2 h2
    simp [phongMain, h2]
  · intro e2 h2
    simp [texMain, h2]

/-- Witness for `C4_theorem`: GLFW initialization fails; no frames, exit
`-1`; and the all-success environment exits `0`. -/
theorem C4_witness :
    ((⟨false, true, true, true, true, true⟩ : DriverEnv).glfwInitOk = false ∨
     (⟨false, true, true, true, true, true⟩ : DriverEnv).createWindowOk = false ∨
     (⟨false, true, true, true, true, true⟩ : DriverEnv).gladLoadOk = false ∨
     (⟨false, true, true, true, true, true⟩ : DriverEnv).vertexCompileOk = false ∨
     (⟨false, true, true, true, true, true⟩ : DriverEnv).fragmentCompileOk = false ∨
     (⟨false, true, true, true, true, true⟩ : DriverEnv).programLinkOk = false) ∧
    ((phongMain ⟨false, true, true, true, true, true⟩ []).1 ≠ 0 ∧
     (phongMain ⟨false, true, true, true, true, true⟩ []).2 = 0 ∧
     (texMain ⟨false, true, true, true, true, true⟩ []).1 ≠ 0 ∧
     (texMain ⟨false, true, true, true, true, true⟩ []).2 = 0 ∧
     (∀ e2 : DriverEnv, phongInitOk e2 = true → (phongMain e2 []).1 = 0) ∧
     (∀ e2 : DriverEnv, texInitOk e2 = true → (texMain e2 []).1 = 0)) :=
  ⟨Or.inl rfl, C4_theorem ⟨false, true, true, true, true, true⟩ [] (Or.inl rfl)⟩

/-! ### Claim C5 -/

theorem erase_fresh_pair (n : ℕ) (l : List ℕ) :
    (((n + 1) :: n :: l).erase n).erase (n + 1) = l := by
  simp [List.erase_cons]

/-- Claim C5: a successful initialization creates exactly one live vertex
array, one live buffer and one live program (the two shader-stage handles
are transient: created and already released inside initialization);
`cleanup` releases exactly those three handles, exactly once each, restoring
the prior live sets; running `cleanup` again is a no-op; and deleting a
handle that was never created or already released leaves the state unchanged
(a safe no-op — deletion is total and cannot fault). -/
theorem C5_theorem (g0 : GLState) (hwf : GLStateWF g0) :
    (phongInitGL g0).1 = ⟨g0.nextId + 3, g0.nextId + 4, g0.nextId + 2⟩ ∧
    (phongInitGL g0).2 = { g0 with
        nextId := g0.nextId + 5,
        liveArrays := (g0.nextId + 3) :: g0.liveArrays,
        liveBuffers := (g0.nextId + 4) :: g0.liveBuffers,
        livePrograms := (g0.nextId + 2) :: g0.livePrograms } ∧
    phongCleanupGL (phongInitGL g0).1 (phongInitGL g0).2
      = { g0 with nextId := g0.nextId + 5 } ∧
    phongCleanupGL (phongInitGL g0).1
        (phongCleanupGL (phongInitGL g0).1 (phongInitGL g0).2)
      = phongCleanupGL (phongInitGL g0).1 (phongInitGL g0).2 ∧
    (∀ h g, h ∉ GLState.liveArrays g → delArray h g = g) ∧
    (∀ h g, h ∉ GLState.liveBuffers g → delBuffer h g = g) ∧
    (∀ h g, h ∉ GLState.livePrograms g → delProgram h g = g) ∧
    (∀ h g, h ∉ GLState.liveTextures g → delTexture h g = g) := by
  obtain ⟨n, ar, bu, pr, sh, te⟩ := g0
  obtain ⟨hwa, hwb, hwp, hws, hwt⟩ := hwf
  dsimp only at hwa hwb hwp hws hwt
  have hinit : phongInitGL ⟨n, ar, bu, pr, sh, te⟩
      = (⟨n + 3, n + 4, n + 2⟩,
         ⟨n + 5, (n + 3) :: ar, (n + 4) :: bu, (n + 2) :: pr, sh, te⟩) := by
    simp [phongInitGL, phongCreateShadersGL, phongSetupBuffersGL, genShader,
      genProgram, genArray, genBuffer, delShader, erase_fresh_pair]
  have hclean : phongCleanupGL ⟨n + 3, n + 4, n + 2⟩
      ⟨n + 5, (n + 3) :: ar, (n + 4) :: bu, (n + 2) :: pr, sh, te⟩
      = ⟨n + 5, ar, bu, pr, sh, te⟩ := by
    simp [phongCleanupGL, delArray, delBuffer, delProgram, List.erase_cons_head]
  have hnotmem_ar : n + 3 ∉ ar := fun hm => by have := hwa _ hm; omega
  have hnotmem_bu : n + 4 ∉ bu := fun hm => by have := hwb _ hm; omega
  have hnotmem_pr : n + 2 ∉ pr := fun hm => by have := hwp _ hm; omega
  refine ⟨by rw [hinit], by rw [hinit], by rw [hinit, hclean], ?_, ?_, ?_, ?_, ?_⟩
  · rw [hinit, hclean]
    simp [phongCleanupGL, delArray, delBuffer, delProgram,
      List.erase_of_not_mem hnotmem_ar, List.erase_of_not_mem hnotmem_bu,
      List.erase_of_not_mem hnotmem_pr]
  · intro h g hm
    simp [delArray, List.erase_of_not_mem hm]
  · intro h g hm
    simp [delBuffer, List.erase_of_not_mem hm]
  · intro h g hm
    simp [delProgram, List.erase_of_not_mem hm]
  · intro h g hm
    simp [delTexture, List.erase_of_not_mem hm]

/-- Witness for `C5_theorem`: the empty well-formed GL state; cleanup after
initialization is idempotent there. -/
theorem C5_witness :
    GLStateWF ⟨0, [], [], [], [], []⟩ ∧
    phongCleanupGL (phongInitGL ⟨0, [], [], [], [], []⟩).1
        (phongCleanupGL (phongInitGL ⟨0, [], [], [], [], []⟩).1
          (phongInitGL ⟨0, [], [], [], [], []⟩).2)
      = phongCleanupGL (phongInitGL ⟨0, [], [], [], [], []⟩).1
          (phongInitGL ⟨0, [], [], [], [], []⟩).2 :=
  ⟨by decide, (C5_theorem ⟨0, [], [], [], [], []⟩ (by decide)).2.2.2.1⟩

/-! ### Claim C6 -/

theorem lookupIdx_eq_neg_one (l : List String) (name : String) (h : name ∉ l) :
    lookupIdx l name = -1 := by
  induction l with
  | nil => rfl
  | cons a l ih =>
    simp only [List.mem_cons, not_or] at h
    show (if a = name then 0 else
      (let r := lookupIdx l name; if r = -1 then -1 else r + 1)) = -1
    rw [if_neg fun hh => h.1 hh.symm]
    simp [ih h.2]

/-- Claim C6: for every uniform name absent from the linked program, the
lookup returns `-1`, the upload at that location is a silent no-op — no
error is recorded and no program state changes — and the per-frame upload of
the remaining uniforms proceeds exactly as if the absent one had not been
requested. -/
theorem C6_theorem (p : GLProgram) (name : String) (v : List ℚ)
    (habs : name ∉ p.active) (rest : List (String × List ℚ)) :
    glGetUniformLocation p name = -1 ∧
    setUniform p name v = p ∧
    (setUniform p name v).glError = p.glError ∧
    uploadUniforms p ((name, v) :: rest) = uploadUniforms p rest := by
  have hloc : glGetUniformLocation p name = -1 :=
    lookupIdx_eq_neg_one p.active name habs
  have hset : setUniform p name v = p := by
    rw [setUniform, hloc, glProgramUniform, if_pos rfl]
  refine ⟨hloc, hset, by rw [hset], ?_⟩
  show uploadUniforms (setUniform p name v) rest = uploadUniforms p rest
  rw [hset]

/-- Witness for `C6_theorem`: `lightPos` is absent from the demonstration
program's active uniforms; setting it changes nothing. -/
theorem C6_witness :
    missingUniform ∉ demoProgram.active ∧
    (glGetUniformLocation demoProgram missingUniform = -1 ∧
     setUniform demoProgram missingUniform [2, 2, 2] = demoProgram ∧
     (setUniform demoProgram missingUniform [2, 2, 2]).glError = demoProgram.glError ∧
     uploadUniforms demoProgram ((missingUniform, [2, 2, 2]) :: [])
        = uploadUniforms demoProgram []) :=
  ⟨by simp [demoProgram, demoActiveUniforms, missingUniform],
   C6_theorem demoProgram missingUniform [2, 2, 2]
     (by simp [demoProgram, demoActiveUniforms, missingUniform]) []⟩

end Triangle
